import Mathlib

/-!
# LocalLibrary controllers: Genre and BookInstance

A shallow embedding of `controllers/genreController.js` and
`controllers/bookinstanceController.js`: the handlers that take an id or a form
(`genre_detail`, `genre_create_post`, `genre_delete_get`, `genre_delete_post`,
`genre_update_get`, `genre_update_post`, `bookinstance_detail`, `bookinstance_create_post`,
`bookinstance_delete_get`, `bookinstance_delete_post`, `bookinstance_update_get`,
`bookinstance_update_post`).

* The document store (the Mongoose models `Genre`, `Book`, `BookInstance`) is an explicit
  `Store` value; every model call is a function on it. A query whose id does not cast to an
  ObjectId rejects with a cast error, as Mongoose does.
* A handler is a function on a `World` (store plus the trace of observable calls: store
  queries, `res.redirect`, `res.render`, `next`, `console.log`), returning either normally
  or with a raised error. `asyncHandler` forwards a raised error to `next`.
* The `express-validator` chains are data (`Chain`) run by one interpreter; the sanitizers
  `trim` and `escape` and the validator `isLength` follow validator.js, with a string taken as
  its sequence of code points (`isLength` leaves presentation sequences out of the length).
* What the libraries decide and the sources do not show (which strings cast to an ObjectId,
  ISO-8601 recognition, date parsing, the schema validation of `save`, the `url` virtuals)
  is a parameter, `Lib`. `refLib` is one instantiation, used for concrete runs.
-/

namespace LocalLibrary

/-! ## Data model -/

/-- An ObjectId, written as its canonical string. -/
abbrev ObjectId := String

/-- A JavaScript `Date`, as milliseconds since the epoch. -/
abbrev Date := Int

/-- Modelled from the spec: the Genre schema (`models/genre.js` is not among the sources):
id and name. -/
structure Genre where
  _id : ObjectId
  name : String
deriving DecidableEq, Repr

/-- Modelled from the spec: the Book schema (`models/book.js` is not among the sources):
id, title, author-reference, summary, isbn, ordered sequence of genre-references. -/
structure Book where
  _id : ObjectId
  title : String
  author : ObjectId
  summary : String
  isbn : String
  genre : List ObjectId
deriving DecidableEq, Repr

/-- Modelled from the spec: the BookInstance schema (`models/bookinstance.js` is not among the
sources): id, book-reference, imprint, status, due-back date. -/
structure BookInstance where
  _id : ObjectId
  book : ObjectId
  imprint : String
  status : String
  due_back : Option Date
deriving DecidableEq, Repr

/-- The three collections. -/
structure Store where
  genres : List Genre
  books : List Book
  bookinstances : List BookInstance
deriving DecidableEq, Repr

/-- A Genre document in memory (`new Genre({...})`): a path whose value did not cast is unset. -/
structure GenreDoc where
  _id : Option ObjectId
  name : String
deriving DecidableEq, Repr

/-- A BookInstance document in memory (`new BookInstance({...})`): a path whose value did not
cast is unset. -/
structure BookInstanceDoc where
  _id : Option ObjectId
  book : Option ObjectId
  imprint : String
  status : String
  due_back : Option Date
deriving DecidableEq, Repr

/-- What the libraries and the model files decide. -/
structure Lib where
  /-- The cast of a string to an ObjectId; `none` when the string is malformed. -/
  castObjectId : String → Option ObjectId
  /-- The `isISO8601` validator. -/
  isISO8601 : String → Bool
  /-- The `toDate` sanitizer (`null` when the string does not parse). -/
  toDate : String → Option Date
  /-- Schema validation run by `save()` on a Genre. -/
  validateGenre : Genre → Bool
  /-- Schema validation run by `save()` on a BookInstance. -/
  validateBookInstance : BookInstance → Bool
  /-- The `url` virtual of a Genre. -/
  genreUrl : Genre → String
  /-- The `url` virtual of a BookInstance. -/
  bookinstanceUrl : BookInstance → String

/-- `Mongoose.prototype.isValidObjectId`: true exactly when the value casts to an ObjectId. -/
def isValidObjectId (L : Lib) (id : String) : Bool :=
  (L.castObjectId id).isSome

/-! ## Values, errors, trace -/

/-- A field value of `req.body` after the validation chains ran. -/
inductive Value where
  | undefined
  | null
  | str (s : String)
  | date (d : Date)
deriving DecidableEq, Repr

/-- The string a validator or sanitizer sees (`toString` of express-validator). -/
def Value.toStr : Value → String
  | .str s => s
  | _ => ""

/-- JavaScript falsiness of a field value. -/
def Value.falsy : Value → Bool
  | .undefined => true
  | .null => true
  | .str s => s == ""
  | .date _ => false

/-- One entry of `validationResult(req).array()`. -/
structure FieldError where
  path : String
  msg : String
deriving DecidableEq, Repr

/-- The errors a handler can raise or pass to `next`. -/
inductive Err where
  /-- The result of `new Error(message)` with `err.status` set. -/
  | http (message : String) (status : Nat)
  /-- Mongoose `CastError`: the id of a query did not cast to an ObjectId. -/
  | castError (model : String) (value : String)
  /-- Mongoose `ValidationError` raised by `save()`. -/
  | validationError (model : String)
  /-- Duplicate `_id` on insert. -/
  | duplicateKey (model : String)
  /-- `TypeError: Cannot read properties of null/undefined (reading ...)`. -/
  | typeError (property : String)
deriving DecidableEq, Repr

/-- A value handed to a view. -/
inductive Local where
  | str (s : String)
  | genre (g : Option Genre)
  | genreDoc (d : GenreDoc)
  | genres (l : List Genre)
  | books (l : List Book)
  | bookinstance (b : Option BookInstance)
  | bookinstanceDoc (d : BookInstanceDoc)
  | bookinstances (l : List BookInstance)
  | objectId (o : ObjectId)
  | errors (l : List FieldError)
deriving DecidableEq, Repr

/-- The observable calls of a handler, in the order they are made. -/
inductive Event where
  | findById (model : String) (id : String)
  | findOne (model : String) (name : String)
  | find (model : String) (filter : Option String)
  | save (model : String) (id : Option ObjectId)
  | findByIdAndRemove (model : String) (id : Option String)
  | findByIdAndUpdate (model : String) (id : String)
  | log (message : String)
  | redirect (url : String)
  | render (view : String) (locals : List (String × Local))
  | next (err : Err)
deriving DecidableEq, Repr

/-- The store together with everything the handler has done so far. -/
structure World where
  store : Store
  trace : List Event
deriving DecidableEq, Repr

/-- A settled promise. -/
abbrev Promise (α : Type) := Except Err α

/-- A computation of a handler: it may raise, and it changes the world. -/
def Handler (α : Type) := World → Except Err α × World

instance : Monad Handler where
  pure a := fun w => (.ok a, w)
  bind m f := fun w =>
    match m w with
    | (.ok a, w') => f a w'
    | (.error e, w') => (.error e, w')

/-- Record an observable call. -/
def emit (e : Event) : Handler Unit :=
  fun w => (.ok (), { w with trace := w.trace ++ [e] })

/-- The statement `throw e`. -/
def raise {α : Type} (e : Err) : Handler α :=
  fun w => (.error e, w)

/-- The expression `await p`. -/
def await {α : Type} (p : Promise α) : Handler α :=
  fun w => (p, w)

/-- `Promise.all([p, q])`: rejects with the first rejection. -/
def Promise.all {α β : Type} (p : Promise α) (q : Promise β) : Promise (α × β) :=
  match p, q with
  | .ok a, .ok b => .ok (a, b)
  | .error e, _ => .error e
  | .ok _, .error e => .error e

/-- `asyncHandler(fn)`: a rejection of `fn` is passed to `next`. -/
def asyncHandler (fn : Handler Unit) : Handler Unit :=
  fun w =>
    match fn w with
    | (.ok _, w') => (.ok (), w')
    | (.error e, w') => (.ok (), { w' with trace := w'.trace ++ [.next e] })

/-- The call `res.redirect(url)`. -/
def res_redirect (url : String) : Handler Unit := emit (.redirect url)

/-- The call `res.render(view, locals)`. -/
def res_render (view : String) (locals : List (String × Local)) : Handler Unit :=
  emit (.render view locals)

/-- The call `next(err)`. -/
def next (err : Err) : Handler Unit := emit (.next err)

/-- The call `console.log(message)`. -/
def console_log (message : String) : Handler Unit := emit (.log message)

/-- A request: the route parameter `id` and the raw body fields. -/
structure Req where
  params_id : String
  body : String → Option String

/-- Run a handler on a store with an empty trace. -/
def run (h : Handler Unit) (s : Store) : Except Err Unit × World :=
  h { store := s, trace := [] }

/-! ## Sanitizers and validators (validator.js) -/

/-- The characters matched by the regular expression class `\s`. -/
def isWhitespace (c : Char) : Bool :=
  let n := c.toNat
  n == 9 || n == 10 || n == 11 || n == 12 || n == 13 || n == 32 || n == 160 || n == 5760
    || (8192 ≤ n && n ≤ 8202) || n == 8232 || n == 8233 || n == 8239 || n == 8287
    || n == 12288 || n == 65279

/-- The sanitizer `ltrim` without a character set: drops leading whitespace. -/
def ltrim (s : String) : String := ⟨s.data.dropWhile isWhitespace⟩

/-- The sanitizer `rtrim` without a character set: drops trailing whitespace. -/
def rtrim (s : String) : String := ⟨s.data.rdropWhile isWhitespace⟩

/-- The sanitizer `trim`: `rtrim(ltrim(str))`. -/
def trim (s : String) : String := rtrim (ltrim s)

/-- The replacement of one character by the sanitizer `escape`. -/
def escapeChar (c : Char) : List Char :=
  if c.toNat = 38 then "&amp;".data
  else if c.toNat = 34 then "&quot;".data
  else if c.toNat = 39 then "&#x27;".data
  else if c.toNat = 60 then "&lt;".data
  else if c.toNat = 62 then "&gt;".data
  else if c.toNat = 47 then "&#x2F;".data
  else if c.toNat = 92 then "&#x5C;".data
  else if c.toNat = 96 then "&#96;".data
  else [c]

/-- The sanitizer `escape`: replaces `&`, the two quotes, `<`, `>`, `/`, the backslash and the
backtick by HTML entities. -/
def escape (s : String) : String := ⟨(s.data.map escapeChar).flatten⟩

/-- The variation selectors U+FE0E and U+FE0F. -/
def isVariationSelector (c : Char) : Bool := c.toNat == 65038 || c.toNat == 65039

/-- The presentation sequences `isLength` leaves out of the length: the matches, from left to
right, of a character that is not a variation selector followed by a variation selector. -/
def presentationSequences : List Char → Nat
  | [] => 0
  | [_] => 0
  | c :: d :: rest =>
    if !isVariationSelector c && isVariationSelector d then presentationSequences rest + 1
    else presentationSequences (d :: rest)

/-- The validator `isLength({ min })`: the length it compares is the number of code points
less the presentation sequences, so a variation selector after a character is not counted. -/
def isLength (min : Nat) (s : String) : Bool :=
  decide (min ≤ s.length - presentationSequences s.data)

/-! ## Validation chains (express-validator) -/

/-- One validator or sanitizer of a chain. -/
inductive ChainItem where
  | trim
  | escape
  | isLength (min : Nat)
  | isISO8601
  | toDate
deriving DecidableEq, Repr

/-- The chain `body(field, message)...`; `optionalFalsy` records `.optional({ values: "falsy" })`. -/
structure Chain where
  field : String
  message : String
  optionalFalsy : Bool
  items : List ChainItem
deriving DecidableEq, Repr

/-- Run one validator or sanitizer on the current value: a sanitizer replaces the value, a failed
validator appends an error, and the chain goes on in both cases. -/
def runItem (L : Lib) (c : Chain) (st : Value × List FieldError) :
    ChainItem → Value × List FieldError
  | .trim => (.str (trim st.1.toStr), st.2)
  | .escape => (.str (escape st.1.toStr), st.2)
  | .isLength min =>
    (st.1, if isLength min st.1.toStr then st.2 else st.2 ++ [⟨c.field, c.message⟩])
  | .isISO8601 =>
    (st.1, if L.isISO8601 st.1.toStr then st.2 else st.2 ++ [⟨c.field, c.message⟩])
  | .toDate =>
    (match L.toDate st.1.toStr with
      | some d => .date d
      | none => .null, st.2)

/-- Run one chain on the value of its field; an optional chain skips a falsy value. -/
def runChain (L : Lib) (c : Chain) (v : Value) : Value × List FieldError :=
  if c.optionalFalsy && v.falsy then (v, [])
  else c.items.foldl (runItem L c) (v, [])

/-- The raw body as field values: an absent field is `undefined`. -/
def rawValues (body : String → Option String) : String → Value :=
  fun k =>
    match body k with
    | none => .undefined
    | some s => .str s

/-- Run the chains in order: each writes the sanitized value of its field back to the body and
adds its errors after the errors of the chains before it. -/
def runValidators (L : Lib) (chains : List Chain) (body : String → Option String) :
    (String → Value) × List FieldError :=
  chains.foldl
    (fun st c =>
      let r := runChain L c (st.1 c.field)
      (fun k => if k = c.field then r.1 else st.1 k, st.2 ++ r.2))
    (rawValues body, [])

/-! ## Model calls (Mongoose) -/

/-- Apply `f` to the first element that satisfies `p`. -/
def updateFirst {α : Type} (p : α → Bool) (f : α → α) : List α → List α
  | [] => []
  | x :: xs => if p x then f x :: xs else x :: updateFirst p f xs

/-- The call `Genre.findById(id)`. -/
def Genre.findById (L : Lib) (id : String) : Handler (Promise (Option Genre)) :=
  fun w =>
    (.ok (match L.castObjectId id with
      | none => .error (.castError "Genre" id)
      | some oid => .ok (w.store.genres.find? (fun g => g._id == oid))),
     { w with trace := w.trace ++ [.findById "Genre" id] })

/-- The call `Genre.findOne({ name })`. -/
def Genre.findOne (name : String) : Handler (Promise (Option Genre)) :=
  fun w =>
    (.ok (.ok (w.store.genres.find? (fun g => g.name == name))),
     { w with trace := w.trace ++ [.findOne "Genre" name] })

/-- The call `Genre.findByIdAndRemove(id)`: removes the document with that id. -/
def Genre.findByIdAndRemove (L : Lib) (id : String) : Handler (Promise (Option Genre)) :=
  fun w =>
    match L.castObjectId id with
    | none =>
      (.ok (.error (.castError "Genre" id)),
       { w with trace := w.trace ++ [.findByIdAndRemove "Genre" (some id)] })
    | some oid =>
      (.ok (.ok (w.store.genres.find? (fun g => g._id == oid))),
       { store := { w.store with genres := w.store.genres.eraseP (fun g => g._id == oid) },
         trace := w.trace ++ [.findByIdAndRemove "Genre" (some id)] })

/-- The call `Genre.findByIdAndUpdate(id, doc, {})`: sets the fields of `doc` on the document
with that id and resolves to the document as it was before (or `null`). -/
def Genre.findByIdAndUpdate (L : Lib) (id : String) (doc : GenreDoc) :
    Handler (Promise (Option Genre)) :=
  fun w =>
    match L.castObjectId id with
    | none =>
      (.ok (.error (.castError "Genre" id)),
       { w with trace := w.trace ++ [.findByIdAndUpdate "Genre" id] })
    | some oid =>
      (.ok (.ok (w.store.genres.find? (fun g => g._id == oid))),
       { store := { w.store with
           genres := updateFirst (fun g => g._id == oid)
             (fun old => { old with name := doc.name }) w.store.genres },
         trace := w.trace ++ [.findByIdAndUpdate "Genre" id] })

/-- The call `genre.save()` on a new document: validates, then inserts; resolves to the saved
document. -/
def GenreDoc.save (L : Lib) (doc : GenreDoc) : Handler (Promise Genre) :=
  fun w =>
    let w1 : World := { w with trace := w.trace ++ [.save "Genre" doc._id] }
    match doc._id with
    | none => (.ok (.error (.validationError "Genre")), w1)
    | some i =>
      let g : Genre := { _id := i, name := doc.name }
      if !L.validateGenre g then (.ok (.error (.validationError "Genre")), w1)
      else if w.store.genres.any (fun x => x._id == i) then
        (.ok (.error (.duplicateKey "Genre")), w1)
      else
        (.ok (.ok g), { w1 with store := { w.store with genres := w.store.genres ++ [g] } })

/-- The projection of a Book to `_id` and the listed fields. -/
def Book.project (title summary : Bool) (b : Book) : Book :=
  { _id := b._id, title := if title then b.title else "", author := "",
    summary := if summary then b.summary else "", isbn := "", genre := [] }

/-- The call `Book.find(filter, projection)`: with `{ genre: id }` the books one of whose
genre-references is `id`, with `{}` all books. -/
def Book.find (L : Lib) (genre : Option String) (projection : Book → Book) :
    Handler (Promise (List Book)) :=
  fun w =>
    (.ok (match genre with
      | none => .ok (w.store.books.map projection)
      | some id =>
        match L.castObjectId id with
        | none => .error (.castError "Book" id)
        | some oid => .ok ((w.store.books.filter (fun b => b.genre.contains oid)).map projection)),
     { w with trace := w.trace ++ [.find "Book" genre] })

/-- The call `BookInstance.findById(id)`. -/
def BookInstance.findById (L : Lib) (id : String) : Handler (Promise (Option BookInstance)) :=
  fun w =>
    (.ok (match L.castObjectId id with
      | none => .error (.castError "BookInstance" id)
      | some oid => .ok (w.store.bookinstances.find? (fun b => b._id == oid))),
     { w with trace := w.trace ++ [.findById "BookInstance" id] })

/-- The call `BookInstance.findByIdAndRemove(id)`; an `undefined` id matches no document. -/
def BookInstance.findByIdAndRemove (L : Lib) (id : Option String) :
    Handler (Promise (Option BookInstance)) :=
  fun w =>
    match id with
    | none =>
      (.ok (.ok none), { w with trace := w.trace ++ [.findByIdAndRemove "BookInstance" none] })
    | some i =>
      match L.castObjectId i with
      | none =>
        (.ok (.error (.castError "BookInstance" i)),
         { w with trace := w.trace ++ [.findByIdAndRemove "BookInstance" (some i)] })
      | some oid =>
        (.ok (.ok (w.store.bookinstances.find? (fun b => b._id == oid))),
         { store := { w.store with
             bookinstances := w.store.bookinstances.eraseP (fun b => b._id == oid) },
           trace := w.trace ++ [.findByIdAndRemove "BookInstance" (some i)] })

/-- The call `BookInstance.findByIdAndUpdate(id, doc, {})`: sets the fields of `doc` that are
set on the document with that id and resolves to the document as it was before (or `null`). -/
def BookInstance.findByIdAndUpdate (L : Lib) (id : String) (doc : BookInstanceDoc) :
    Handler (Promise (Option BookInstance)) :=
  fun w =>
    match L.castObjectId id with
    | none =>
      (.ok (.error (.castError "BookInstance" id)),
       { w with trace := w.trace ++ [.findByIdAndUpdate "BookInstance" id] })
    | some oid =>
      (.ok (.ok (w.store.bookinstances.find? (fun b => b._id == oid))),
       { store := { w.store with
           bookinstances := updateFirst (fun b => b._id == oid)
             (fun old => { old with book := doc.book.getD old.book, imprint := doc.imprint,
                                    status := doc.status, due_back := doc.due_back })
             w.store.bookinstances },
         trace := w.trace ++ [.findByIdAndUpdate "BookInstance" id] })

/-- The call `bookInstance.save()` on a new document: a path that did not cast, or a document
the schema rejects, is a validation error; otherwise the document is inserted, and the call
resolves to the saved document. -/
def BookInstanceDoc.save (L : Lib) (doc : BookInstanceDoc) : Handler (Promise BookInstance) :=
  fun w =>
    let w1 : World := { w with trace := w.trace ++ [.save "BookInstance" doc._id] }
    match doc._id, doc.book with
    | some i, some b =>
      let x : BookInstance :=
        { _id := i, book := b, imprint := doc.imprint, status := doc.status,
          due_back := doc.due_back }
      if !L.validateBookInstance x then (.ok (.error (.validationError "BookInstance")), w1)
      else if w.store.bookinstances.any (fun y => y._id == i) then
        (.ok (.error (.duplicateKey "BookInstance")), w1)
      else
        (.ok (.ok x),
         { w1 with store := { w.store with bookinstances := w.store.bookinstances ++ [x] } })
    | _, _ => (.ok (.error (.validationError "BookInstance")), w1)

/-- The cast of a body value to an ObjectId path of a new document: unset when it fails. -/
def Value.toObjectId (L : Lib) : Value → Option ObjectId
  | .str s => L.castObjectId s
  | _ => none

/-- The cast of a body value to a Date path of a new document. -/
def Value.toDate? : Value → Option Date
  | .date d => some d
  | _ => none

/-! ## controllers/genreController.js -/

/-- Display detail page for a specific Genre. -/
def genre_detail (L : Lib) (req : Req) : Handler Unit :=
  asyncHandler (do
    if isValidObjectId L req.params_id then
      let p ← Genre.findById L req.params_id
      let q ← Book.find L (some req.params_id) (Book.project true true)
      let (genre, booksInGenre) ← await (Promise.all p q)
      match genre with
      | none => next (.http "Genre not found" 404)
      | some g =>
        res_render "genre_detail"
          [("title", .str "Genre Detail"), ("genre", .genre (some g)),
           ("genre_books", .books booksInGenre)]
    else
      next (.http "Genre not found" 404))

/-- The validation chain of `genre_create_post`. -/
def genre_create_post_validators : List Chain :=
  [{ field := "name", message := "Genre name must contain at least 3 characters",
     optionalFalsy := false, items := [.trim, .isLength 3, .escape] }]

/-- Handle Genre create on POST; `newId` is the id `new Genre(...)` generates. -/
def genre_create_post (L : Lib) (newId : ObjectId) (req : Req) : Handler Unit :=
  let v := runValidators L genre_create_post_validators req.body
  asyncHandler (do
    let errors := v.2
    let genre : GenreDoc := { _id := some newId, name := (v.1 "name").toStr }
    if !errors.isEmpty then
      res_render "genre_form"
        [("title", .str "Create Genre"), ("genre", .genreDoc genre), ("errors", .errors errors)]
    else
      let genreExists ← await (← Genre.findOne (v.1 "name").toStr)
      match genreExists with
      | some g => res_redirect (L.genreUrl g)
      | none =>
        let saved ← await (← genre.save L)
        res_redirect (L.genreUrl saved))

/-- Display Genre delete form on GET. -/
def genre_delete_get (L : Lib) (req : Req) : Handler Unit :=
  asyncHandler (do
    let p ← Genre.findById L req.params_id
    let q ← Book.find L (some req.params_id) id
    let (genre, genreBooks) ← await (Promise.all p q)
    if genre.isNone then
      res_redirect "/catalog/genre"
    res_render "genre_delete"
      [("title", .str "Delete Genre"), ("genre", .genre genre), ("genreBooks", .books genreBooks)])

/-- Handle Genre delete on POST. -/
def genre_delete_post (L : Lib) (req : Req) : Handler Unit :=
  asyncHandler (do
    let p ← Genre.findById L req.params_id
    let q ← Book.find L (some req.params_id) id
    let (genre, genreBooks) ← await (Promise.all p q)
    if genre.isNone then
      res_redirect "/catalog/genre"
    else if genreBooks.length ≠ 0 then
      res_render "genre_delete"
        [("title", .str "Delete Genre"), ("genre", .genre genre),
         ("genreBooks", .books genreBooks)]
    else if genreBooks.length = 0 then
      let _ ← await (← Genre.findByIdAndRemove L req.params_id)
      res_redirect "/catalog/genres"
    else
      pure ())

/-- Display Genre update form on GET. -/
def genre_update_get (L : Lib) (req : Req) : Handler Unit :=
  asyncHandler (do
    let genre ← await (← Genre.findById L req.params_id)
    if genre.isNone then
      res_redirect "/catalog/genres"
    else
      res_render "genre_form" [("title", .str "Update genre"), ("genre", .genre genre)])

/-- The validation chain of `genre_update_post`. -/
def genre_update_post_validators : List Chain :=
  [{ field := "name", message := "Genre name must contain at least 3 characters",
     optionalFalsy := false, items := [.trim, .isLength 3, .escape] }]

/-- Handle Genre update on POST. -/
def genre_update_post (L : Lib) (req : Req) : Handler Unit :=
  let v := runValidators L genre_update_post_validators req.body
  asyncHandler (do
    let errors := v.2
    let genre : GenreDoc := { _id := L.castObjectId req.params_id, name := (v.1 "name").toStr }
    if !errors.isEmpty then
      res_render "genre_form"
        [("title", .str "Update genre"), ("genre", .genreDoc genre), ("errors", .errors errors)]
    else
      let genreExists ← await (← Genre.findOne (v.1 "name").toStr)
      match genreExists with
      | some g => res_redirect (L.genreUrl g)
      | none =>
        let updatedGenre ← await (← Genre.findByIdAndUpdate L req.params_id genre)
        match updatedGenre with
        | none => raise (.typeError "url")
        | some u => res_redirect (L.genreUrl u))

/-! ## controllers/bookinstanceController.js -/

/-- Display detail page for a specific BookInstance (the population of `book` is left to the
view). -/
def bookinstance_detail (L : Lib) (req : Req) : Handler Unit :=
  asyncHandler (do
    if isValidObjectId L req.params_id then
      let bookInstance ← await (← BookInstance.findById L req.params_id)
      match bookInstance with
      | none => next (.http "Book copy not found" 404)
      | some b =>
        res_render "bookinstance_detail"
          [("title", .str "Book:"), ("bookinstance", .bookinstance (some b))]
    else
      next (.http "Book copy not found" 404))

/-- The validation chains of `bookinstance_create_post`. -/
def bookinstance_create_post_validators : List Chain :=
  [{ field := "book", message := "Book must be specified", optionalFalsy := false,
     items := [.trim, .isLength 1, .escape] },
   { field := "imprint", message := "Imprint must be specified", optionalFalsy := false,
     items := [.trim, .isLength 1, .escape] },
   { field := "status", message := "Invalid value", optionalFalsy := false,
     items := [.escape] },
   { field := "due_back", message := "Invalid date", optionalFalsy := true,
     items := [.isISO8601, .toDate] }]

/-- Handle BookInstance create on POST; `newId` is the id `new BookInstance(...)` generates. -/
def bookinstance_create_post (L : Lib) (newId : ObjectId) (req : Req) : Handler Unit :=
  let v := runValidators L bookinstance_create_post_validators req.body
  asyncHandler (do
    let errors := v.2
    let bookInstance : BookInstanceDoc :=
      { _id := some newId, book := (v.1 "book").toObjectId L, imprint := (v.1 "imprint").toStr,
        status := (v.1 "status").toStr, due_back := (v.1 "due_back").toDate? }
    if !errors.isEmpty then
      let allBooks ← await (← Book.find L none (Book.project true false))
      let selected_book ← match bookInstance.book with
        | none => raise (.typeError "_id")
        | some b => pure b
      res_render "bookinstance_form"
        [("title", .str "Create BookInstance"), ("book_list", .books allBooks),
         ("selected_book", .objectId selected_book), ("errors", .errors errors),
         ("bookinstance", .bookinstanceDoc bookInstance)]
    else
      let saved ← await (← bookInstance.save L)
      res_redirect (L.bookinstanceUrl saved))

/-- Display BookInstance delete form on GET. -/
def bookinstance_delete_get (L : Lib) (req : Req) : Handler Unit :=
  asyncHandler (do
    let bookInstance ← await (← BookInstance.findById L req.params_id)
    match bookInstance with
    | none => res_redirect "/catalog/bookinstances"
    | some b =>
      if b.status = "Available" then
        res_render "bookInstance_delete"
          [("title", .str "Delete Book Instance"), ("bookI", .bookinstance (some b))]
      else
        res_render "bookInstance_delete"
          [("title", .str "You cannot delete this"), ("status", .str b.status)])

/-- Handle BookInstance delete on POST. -/
def bookinstance_delete_post (L : Lib) (req : Req) : Handler Unit :=
  asyncHandler (do
    let bookInstance ← await (← BookInstance.findById L req.params_id)
    if bookInstance.isNone then
      console_log "nope"
      res_redirect "/catalog/bookinstances"
    let status ← match bookInstance with
      | none => raise (.typeError "status")
      | some b => pure b.status
    if status = "Available" then
      let _ ← await (← BookInstance.findByIdAndRemove L (req.body "bookInstanceId"))
      res_redirect "/catalog/bookinstances"
    else
      pure ())

/-- Display BookInstance update form on GET. -/
def bookinstance_update_get (L : Lib) (req : Req) : Handler Unit :=
  asyncHandler (do
    let p ← BookInstance.findById L req.params_id
    let q ← Book.find L none (Book.project true false)
    let (bookInstance, allBooks) ← await (Promise.all p q)
    match bookInstance with
    | none => next (.http "Book instance not found" 404)
    | some b =>
      res_render "bookinstance_form"
        [("title", .str "Update BookInstance"), ("book_list", .books allBooks),
         ("bookinstance", .bookinstance (some b))])

/-- The validation chains of `bookinstance_update_post`. -/
def bookinstance_update_post_validators : List Chain :=
  [{ field := "book", message := "Book must be specified", optionalFalsy := false,
     items := [.trim, .isLength 1, .escape] },
   { field := "imprint", message := "Imprint must be specified", optionalFalsy := false,
     items := [.trim, .isLength 1, .escape] },
   { field := "status", message := "Invalid value", optionalFalsy := false,
     items := [.escape] },
   { field := "due_back", message := "Invalid date", optionalFalsy := true,
     items := [.isISO8601, .toDate] }]

/-- Handle bookinstance update on POST. -/
def bookinstance_update_post (L : Lib) (req : Req) : Handler Unit :=
  let v := runValidators L bookinstance_update_post_validators req.body
  asyncHandler (do
    let errors := v.2
    let bookInstance : BookInstanceDoc :=
      { _id := L.castObjectId req.params_id, book := (v.1 "book").toObjectId L,
        imprint := (v.1 "imprint").toStr, status := (v.1 "status").toStr,
        due_back := (v.1 "due_back").toDate? }
    if !errors.isEmpty then
      let allBooks ← await (← Book.find L none (Book.project true false))
      let selected_book ← match bookInstance.book with
        | none => raise (.typeError "_id")
        | some b => pure b
      res_render "bookinstance_form"
        [("title", .str "Create BookInstance"), ("book_list", .books allBooks),
         ("selected_book", .objectId selected_book), ("errors", .errors errors),
         ("bookinstance", .bookinstanceDoc bookInstance)]
    else
      let updatedBook ← await (← BookInstance.findByIdAndUpdate L req.params_id bookInstance)
      match updatedBook with
      | none => raise (.typeError "url")
      | some u => res_redirect (L.bookinstanceUrl u))

/-! ## A reference instantiation of the libraries -/

/-- Hexadecimal digit. -/
def isHexDigit (c : Char) : Bool :=
  (48 ≤ c.toNat && c.toNat ≤ 57) || (97 ≤ c.toNat && c.toNat ≤ 102)
    || (65 ≤ c.toNat && c.toNat ≤ 70)

/-- A reference instantiation used for concrete runs: an ObjectId is a string of 24 hexadecimal
digits, a date is `YYYY-MM-DD` read as its digits, every document passes schema validation, and
the `url` virtuals are those of the MDN tutorial. -/
def refLib : Lib where
  castObjectId s := if s.length = 24 ∧ s.data.all isHexDigit then some s else none
  isISO8601 s :=
    match s.data with
    | [y1, y2, y3, y4, '-', m1, m2, '-', d1, d2] =>
      [y1, y2, y3, y4, m1, m2, d1, d2].all Char.isDigit
    | _ => false
  toDate s :=
    match s.data with
    | [y1, y2, y3, y4, '-', m1, m2, '-', d1, d2] =>
      if [y1, y2, y3, y4, m1, m2, d1, d2].all Char.isDigit then
        some (Int.ofNat ([y1, y2, y3, y4, m1, m2, d1, d2].foldl
          (fun n c => 10 * n + (c.toNat - 48)) 0))
      else none
    | _ => none
  validateGenre _ := true
  validateBookInstance _ := true
  genreUrl g := "/catalog/genre/" ++ g._id
  bookinstanceUrl b := "/catalog/bookinstance/" ++ b._id

/-! ## Sample data for concrete runs -/

/-- A raw body given by its fields. -/
def form (l : List (String × String)) : String → Option String :=
  fun k => (l.find? (fun p => p.1 == k)).map (fun p => p.2)

/-- A well-formed id. -/
def idA : String := "aaaaaaaaaaaaaaaaaaaaaaaa"

/-- A second well-formed id. -/
def idB : String := "bbbbbbbbbbbbbbbbbbbbbbbb"

/-- A third well-formed id. -/
def idC : String := "cccccccccccccccccccccccc"

/-- A fourth well-formed id. -/
def idD : String := "dddddddddddddddddddddddd"

/-- The genre "Fiction". -/
def fiction : Genre := { _id := idA, name := "Fiction" }

/-- A book of genre "Fiction". -/
def novel : Book :=
  { _id := idB, title := "Novel", author := idD, summary := "", isbn := "", genre := [idA] }

/-- An available copy of the novel. -/
def copyAvailable : BookInstance :=
  { _id := idC, book := idB, imprint := "First", status := "Available", due_back := none }

/-- A loaned copy of the novel. -/
def copyLoaned : BookInstance :=
  { _id := idD, book := idB, imprint := "Second", status := "Loaned", due_back := some 20240102 }

/-- A store with one genre, one book of that genre and two copies of the book. -/
def library : Store :=
  { genres := [fiction], books := [novel], bookinstances := [copyAvailable, copyLoaned] }

/-- A store with one genre and no book. -/
def shelf : Store := { genres := [fiction], books := [], bookinstances := [] }

/-- A store with two genres. -/
def twoGenres : Store :=
  { genres := [fiction, { _id := idB, name := "Poetry" }], books := [], bookinstances := [] }

/-- A valid BookInstance form whose imprint has outer whitespace and an ampersand. -/
def copyForm : String → Option String :=
  form [("book", idB), ("imprint", " A&B "), ("status", "Available"), ("due_back", "2024-01-02")]

/-- A BookInstance form without the field `book`. -/
def formWithoutBook : String → Option String :=
  form [("imprint", "First"), ("status", "Available")]

/-! ## Predicates of the specification -/

/-- Ids are unique within each collection. -/
def Store.WF (s : Store) : Prop :=
  (s.genres.map (fun g => g._id)).Nodup ∧ (s.books.map (fun b => b._id)).Nodup
    ∧ (s.bookinstances.map (fun b => b._id)).Nodup

instance (s : Store) : Decidable s.WF := by
  unfold Store.WF
  exact inferInstance

/-- The errors of a BookInstance form as the specification words them, rule by rule in the
field order book, imprint, due_back: book empty after trimming; imprint empty after trimming;
due_back present, not empty and not an ISO-8601 date. -/
def bookinstanceErrorsSpec (L : Lib) (body : String → Option String) : List FieldError :=
  (if trim ((body "book").getD "") = "" then [⟨"book", "Book must be specified"⟩] else [])
  ++ (if trim ((body "imprint").getD "") = "" then [⟨"imprint", "Imprint must be specified"⟩]
      else [])
  ++ (match body "due_back" with
      | none => []
      | some d =>
        if d = "" then [] else if L.isISO8601 d then [] else [⟨"due_back", "Invalid date"⟩])

/-- The BookInstance with the sanitized fields of a form: the imprint trimmed and escaped, the
status escaped, the due-back date converted by `toDate`. -/
def createdInstance (L : Lib) (newId b : ObjectId) (im st db : String) : BookInstance :=
  { _id := newId, book := b, imprint := escape (trim im), status := escape st,
    due_back := L.toDate db }

/-- The normalized name of the specification: whitespace trimmed, letter case ignored. -/
def normalizedName (name : String) : String := ⟨(trim name).data.map Char.toLower⟩

/-- No two Genres in the store have the same normalized name. -/
def NormalizedNamesUnique (s : Store) : Prop :=
  s.genres.Pairwise (fun a b => normalizedName a.name ≠ normalizedName b.name)

instance (s : Store) : Decidable (NormalizedNamesUnique s) := by
  unfold NormalizedNamesUnique
  exact inferInstance

/-- Every Genre name in the list is trimmed and no two of them are equal after trimming. -/
def TrimmedUnique (l : List Genre) : Prop :=
  (∀ g ∈ l, trim g.name = g.name) ∧ l.Pairwise (fun a b => trim a.name ≠ trim b.name)

instance (l : List Genre) : Decidable (TrimmedUnique l) := by
  unfold TrimmedUnique
  exact inferInstance

/-- Every stored Genre name is trimmed and no two Genres have the same trimmed name (letter
case is significant). -/
def TrimmedNamesUnique (s : Store) : Prop := TrimmedUnique s.genres

instance (s : Store) : Decidable (TrimmedNamesUnique s) := by
  unfold TrimmedNamesUnique
  exact inferInstance

/-- Neither the first nor the last character is whitespace. -/
def NoOuterSpace (l : List Char) : Prop :=
  (∀ c, l.head? = some c → isWhitespace c = false)
    ∧ (∀ c, l.getLast? = some c → isWhitespace c = false)

/-! ## Lemmas on lists and sanitizers -/

theorem eraseP_eq_filter_of_nodup {α : Type} (key : α → String) (k : String) :
    ∀ l : List α, (l.map key).Nodup →
      l.eraseP (fun x => key x == k) = l.filter (fun x => !(key x == k))
  | [], _ => rfl
  | x :: xs, h => by
    have hx : key x ∉ xs.map key := (List.nodup_cons.mp h).1
    have hxs : (xs.map key).Nodup := (List.nodup_cons.mp h).2
    by_cases hk : key x = k
    · have hnone : ∀ y ∈ xs, (!(key y == k)) = true := by
        intro y hy
        have : key y ≠ k := by
          intro hyk
          exact hx (by rw [hk, ← hyk]; exact List.mem_map_of_mem key hy)
        simpa using this
      simp [List.eraseP_cons, hk, List.filter_eq_self.mpr hnone]
    · simp [List.eraseP_cons, hk, eraseP_eq_filter_of_nodup key k xs hxs]

theorem trimmed_of_noOuterSpace (l : List Char) (h : NoOuterSpace l) :
    (l.dropWhile isWhitespace).rdropWhile isWhitespace = l := by
  have h1 : l.dropWhile isWhitespace = l := by
    cases l with
    | nil => rfl
    | cons c cs =>
      have := h.1 c rfl
      simp [List.dropWhile_cons, this]
  rw [h1, List.rdropWhile_eq_self_iff]
  intro hl
  have := h.2 (l.getLast hl) (List.getLast?_eq_getLast _ hl)
  simp [this]

theorem noOuterSpace_trim (l : List Char) :
    NoOuterSpace ((l.dropWhile isWhitespace).rdropWhile isWhitespace) := by
  constructor
  · intro c hc
    obtain ⟨r, hr⟩ := List.rdropWhile_prefix isWhitespace (l := l.dropWhile isWhitespace)
    have hd : (l.dropWhile isWhitespace).head? = some c := by
      rw [← hr, List.head?_append, hc]
      rfl
    have := List.head?_dropWhile_not isWhitespace l
    rw [hd] at this
    exact this
  · intro c hc
    by_cases ht : (l.dropWhile isWhitespace).rdropWhile isWhitespace = []
    · rw [ht] at hc
      simp at hc
    · have := List.rdropWhile_last_not isWhitespace (l.dropWhile isWhitespace) ht
      rw [List.getLast?_eq_getLast _ ht] at hc
      cases hc
      simpa using this

theorem escapeChar_head (c : Char) :
    ∃ x xs, escapeChar c = x :: xs ∧ (isWhitespace c = false → isWhitespace x = false) := by
  unfold escapeChar
  split_ifs
  all_goals first
    | exact ⟨_, _, rfl, fun _ => by decide⟩
    | exact ⟨_, _, rfl, fun h => h⟩

theorem escapeChar_last (c : Char) :
    ∃ y, (escapeChar c).getLast? = some y ∧ (isWhitespace c = false → isWhitespace y = false) := by
  unfold escapeChar
  split_ifs
  all_goals first
    | exact ⟨_, rfl, fun _ => by decide⟩
    | exact ⟨_, rfl, fun h => h⟩

theorem noOuterSpace_escape (t : List Char) (h : NoOuterSpace t) :
    NoOuterSpace ((t.map escapeChar).flatten) := by
  constructor
  · intro c hc
    cases t with
    | nil => simp at hc
    | cons a as =>
      obtain ⟨x, xs, hx, hws⟩ := escapeChar_head a
      simp [hx] at hc
      rw [← hc]
      exact hws (h.1 a rfl)
  · intro c hc
    rcases List.eq_nil_or_concat t with ht | ⟨as, a, ht⟩
    · subst ht
      simp at hc
    · subst ht
      obtain ⟨y, hy, hws⟩ := escapeChar_last a
      simp [hy] at hc
      rw [← hc]
      exact hws (h.2 a (by simp))

theorem trim_escape_trim (x : String) : trim (escape (trim x)) = escape (trim x) := by
  simp only [trim, ltrim, rtrim, escape]
  congr 1
  exact trimmed_of_noOuterSpace _ (noOuterSpace_escape _ (noOuterSpace_trim _))
theorem trim_empty : trim "" = "" := by rfl

theorem presentationSequences_le : ∀ (n : Nat) (l : List Char), l.length ≤ n →
    2 * presentationSequences l ≤ l.length
  | _, [], _ => by simp [presentationSequences]
  | _, [_], _ => by simp [presentationSequences]
  | 0, _ :: _ :: _, h => by simp at h
  | n + 1, c :: d :: rest, h => by
    unfold presentationSequences
    split_ifs
    · have := presentationSequences_le n rest (by simp at h; omega)
      simp only [List.length_cons]
      omega
    · have := presentationSequences_le n (d :: rest) (by simp at h ⊢; omega)
      simp only [List.length_cons] at this ⊢
      omega

theorem isLength_one (s : String) : isLength 1 s = !decide (s = "") := by
  unfold isLength
  rcases s with ⟨l⟩
  have h := presentationSequences_le l.length l (le_refl _)
  cases l with
  | nil => simp [String.length, presentationSequences]
  | cons c cs =>
    have hne : (⟨c :: cs⟩ : String) ≠ "" := by simp [String.ext_iff]
    simp only [String.length, List.length_cons] at h ⊢
    simp [hne]
    omega

/-- A variation selector after a character does not count: "ab" followed by U+FE0F has
length 2 for `isLength`, and a selector on its own has length 1. -/
theorem isLength_variation_selector :
    isLength 3 "ab\uFE0F" = false ∧ isLength 2 "ab\uFE0F" = true
    ∧ isLength 1 "\uFE0F" = true := by
  decide

/-! ## The genre name chain and the stores the genre posts can produce -/

theorem genre_chain_eval (L : Lib) (body : String → Option String) :
    (((runValidators L genre_create_post_validators body).1 "name").toStr
        = escape (trim (rawValues body "name").toStr)
      ∧ (runValidators L genre_create_post_validators body).2 =
        if isLength 3 (trim (rawValues body "name").toStr) then []
        else [⟨"name", "Genre name must contain at least 3 characters"⟩])
    ∧ (((runValidators L genre_update_post_validators body).1 "name").toStr
        = escape (trim (rawValues body "name").toStr)
      ∧ (runValidators L genre_update_post_validators body).2 =
        if isLength 3 (trim (rawValues body "name").toStr) then []
        else [⟨"name", "Genre name must contain at least 3 characters"⟩]) := by
  simp [runValidators, genre_create_post_validators, genre_update_post_validators, runChain,
    runItem, Value.toStr]

theorem genre_create_post_store (L : Lib) (s : Store) (newId : ObjectId) (req : Req) :
    (run (genre_create_post L newId req) s).2.store = s
    ∨ ((run (genre_create_post L newId req) s).2.store =
          { s with
            genres := s.genres ++
              [{ _id := newId, name := escape (trim (rawValues req.body "name").toStr) }] }
        ∧ s.genres.find?
            (fun x => x.name == escape (trim (rawValues req.body "name").toStr)) = none) := by
  obtain ⟨hv1, hv2⟩ := (genre_chain_eval L req.body).1
  by_cases hvalid : isLength 3 (trim (rawValues req.body "name").toStr) = true
  · rw [if_pos hvalid] at hv2
    cases hf : s.genres.find?
        (fun x => x.name == escape (trim (rawValues req.body "name").toStr)) with
    | some g =>
      left
      simp [run, genre_create_post, asyncHandler, bind, Genre.findOne, await, hv1, hv2, hf,
        res_redirect, emit]
    | none =>
      cases hs : L.validateGenre
          { _id := newId, name := escape (trim (rawValues req.body "name").toStr) } with
      | false =>
        left
        simp [run, genre_create_post, asyncHandler, bind, Genre.findOne, await, hv1, hv2, hf,
          res_redirect, emit, GenreDoc.save, hs]
      | true =>
        by_cases ha : ∃ x ∈ s.genres, x._id = newId
        · left
          simp [run, genre_create_post, asyncHandler, bind, Genre.findOne, await, hv1, hv2, hf,
            res_redirect, emit, GenreDoc.save, hs, ha]
        · right
          simp [run, genre_create_post, asyncHandler, bind, Genre.findOne, await, hv1, hv2, hf,
            res_redirect, emit, GenreDoc.save, hs, ha]
  · rw [if_neg hvalid] at hv2
    left
    simp [run, genre_create_post, asyncHandler, bind, hv1, hv2, res_render, emit]

theorem genre_update_post_store (L : Lib) (s : Store) (req : Req) :
    (run (genre_update_post L req) s).2.store = s
    ∨ ((∃ oid, (run (genre_update_post L req) s).2.store =
          { s with
            genres := updateFirst (fun x => x._id == oid)
              (fun o => { o with name := escape (trim (rawValues req.body "name").toStr) })
              s.genres })
        ∧ s.genres.find?
            (fun x => x.name == escape (trim (rawValues req.body "name").toStr)) = none) := by
  obtain ⟨hv1, hv2⟩ := (genre_chain_eval L req.body).2
  by_cases hvalid : isLength 3 (trim (rawValues req.body "name").toStr) = true
  · rw [if_pos hvalid] at hv2
    cases hf : s.genres.find?
        (fun x => x.name == escape (trim (rawValues req.body "name").toStr)) with
    | some g =>
      left
      simp [run, genre_update_post, asyncHandler, bind, Genre.findOne, await, hv1, hv2, hf,
        res_redirect, emit]
    | none =>
      cases hc : L.castObjectId req.params_id with
      | none =>
        left
        simp [run, genre_update_post, asyncHandler, bind, Genre.findOne, await, hv1, hv2, hf,
          res_redirect, emit, Genre.findByIdAndUpdate, hc]
      | some oid =>
        right
        refine ⟨⟨oid, ?_⟩, rfl⟩
        cases ho : s.genres.find? (fun x => x._id == oid) <;>
          simp [run, genre_update_post, asyncHandler, bind, Genre.findOne, await, hv1, hv2, hf,
            res_redirect, emit, Genre.findByIdAndUpdate, hc, ho, raise]
  · rw [if_neg hvalid] at hv2
    left
    simp [run, genre_update_post, asyncHandler, bind, hv1, hv2, res_render, emit]

theorem find?_name_eq_none {l : List Genre} {n : String}
    (h : l.find? (fun x => x.name == n) = none) : ∀ g ∈ l, g.name ≠ n := by
  intro g hg
  simpa using List.find?_eq_none.mp h g hg

theorem trimmedUnique_append (l : List Genre) (g : Genre) (h : TrimmedUnique l)
    (hg : trim g.name = g.name) (hnew : ∀ x ∈ l, x.name ≠ g.name) :
    TrimmedUnique (l ++ [g]) := by
  refine ⟨?_, ?_⟩
  · intro x hx
    rcases List.mem_append.mp hx with hx | hx
    · exact h.1 x hx
    · simp at hx
      rw [hx]
      exact hg
  · rw [List.pairwise_append]
    refine ⟨h.2, List.pairwise_singleton _ _, ?_⟩
    intro a ha b hb
    simp at hb
    rw [hb, h.1 a ha, hg]
    exact hnew a ha

theorem mem_updateFirst {α : Type} (p : α → Bool) (f : α → α) :
    ∀ (l : List α) (y : α), y ∈ updateFirst p f l → y ∈ l ∨ ∃ x ∈ l, y = f x
  | [], y, h => by simp [updateFirst] at h
  | x :: xs, y, h => by
    unfold updateFirst at h
    split_ifs at h
    · rcases List.mem_cons.mp h with h | h
      · exact Or.inr ⟨x, List.mem_cons_self _ _, h⟩
      · exact Or.inl (List.mem_cons_of_mem _ h)
    · rcases List.mem_cons.mp h with h | h
      · exact Or.inl (h ▸ List.mem_cons_self _ _)
      · rcases mem_updateFirst p f xs y h with h | ⟨z, hz, hy⟩
        · exact Or.inl (List.mem_cons_of_mem _ h)
        · exact Or.inr ⟨z, List.mem_cons_of_mem _ hz, hy⟩

theorem trimmedUnique_updateFirst (p : Genre → Bool) (n : String) (hn : trim n = n) :
    ∀ l : List Genre, TrimmedUnique l → (∀ x ∈ l, x.name ≠ n) →
      TrimmedUnique (updateFirst p (fun o => { o with name := n }) l)
  | [], h, _ => by simpa [updateFirst] using h
  | x :: xs, h, hnew => by
    have hxs : TrimmedUnique xs :=
      ⟨fun g hg => h.1 g (List.mem_cons_of_mem _ hg), (List.pairwise_cons.mp h.2).2⟩
    have hnew' : ∀ y ∈ xs, y.name ≠ n := fun y hy => hnew y (List.mem_cons_of_mem _ hy)
    unfold updateFirst
    split_ifs
    · refine ⟨?_, List.pairwise_cons.mpr ⟨?_, hxs.2⟩⟩
      · intro g hg
        rcases List.mem_cons.mp hg with hg | hg
        · rw [hg]
          exact hn
        · exact hxs.1 g hg
      · intro b hb
        show trim n ≠ trim b.name
        rw [hn, hxs.1 b hb]
        exact fun e => hnew' b hb e.symm
    · have ih := trimmedUnique_updateFirst p n hn xs hxs hnew'
      refine ⟨?_, List.pairwise_cons.mpr ⟨?_, ih.2⟩⟩
      · intro g hg
        rcases List.mem_cons.mp hg with hg | hg
        · rw [hg]
          exact h.1 x (List.mem_cons_self _ _)
        · exact ih.1 g hg
      · intro b hb
        rcases mem_updateFirst p _ xs b hb with hb | ⟨z, _, hb⟩
        · exact (List.pairwise_cons.mp h.2).1 b hb
        · rw [hb]
          show trim x.name ≠ trim n
          rw [hn, h.1 x (List.mem_cons_self _ _)]
          exact hnew x (List.mem_cons_self _ _)

/-! ## The claims -/

/-- C1: `genre_delete_post` on the id of an existing Genre. If some Book references the genre,
the outcome is the view `genre_delete` carrying exactly the books that reference it, and the
store is unchanged; if no Book references it, exactly the Genre with that id is removed from
the store and the outcome is a redirect. -/
theorem genre_delete_post_guard (L : Lib) (s : Store) (req : Req) (oid : ObjectId) (g : Genre)
    (hwf : s.WF)
    (hid : L.castObjectId req.params_id = some oid)
    (hg : s.genres.find? (fun x => x._id == oid) = some g) :
    (s.books.filter (fun b => b.genre.contains oid) ≠ [] →
      run (genre_delete_post L req) s =
        (.ok (), { store := s,
                   trace := [.findById "Genre" req.params_id, .find "Book" (some req.params_id),
                     .render "genre_delete"
                       [("title", .str "Delete Genre"), ("genre", .genre (some g)),
                        ("genreBooks",
                          .books (s.books.filter (fun b => b.genre.contains oid)))]] })) ∧
    (s.books.filter (fun b => b.genre.contains oid) = [] →
      run (genre_delete_post L req) s =
        (.ok (), { store := { s with genres := s.genres.filter (fun x => !(x._id == oid)) },
                   trace := [.findById "Genre" req.params_id, .find "Book" (some req.params_id),
                     .findByIdAndRemove "Genre" (some req.params_id),
                     .redirect "/catalog/genres"] })) := by
  constructor
  · intro hb
    have hb1 : ∃ x ∈ s.books, oid ∈ x.genre := by simpa using hb
    simp [run, genre_delete_post, asyncHandler, bind, Genre.findById, Book.find, await,
      Promise.all, hid, hg, res_render, res_redirect, emit, hb1]
  · intro hb
    have hb1 : ∀ a ∈ s.books, oid ∉ a.genre := by simpa using hb
    have hb2 : ¬ ∃ x ∈ s.books, oid ∈ x.genre := by
      rintro ⟨x, hx, hm⟩
      exact hb1 x hx hm
    simp only [run, genre_delete_post, asyncHandler, bind, Genre.findById, Book.find, await,
      Promise.all, hid, hg, res_render, res_redirect, emit, hb, Genre.findByIdAndRemove]
    simp [hb1, hb2]
    exact eraseP_eq_filter_of_nodup (fun x : Genre => x._id) oid s.genres hwf.1

/-- C1, at a concrete store: deleting "Fiction" is blocked while the novel references it and
removes it once no book does. -/
theorem genre_delete_post_guard_witness :
    (library.WF ∧ refLib.castObjectId idA = some idA
      ∧ library.genres.find? (fun x => x._id == idA) = some fiction
      ∧ library.books.filter (fun b => b.genre.contains idA) ≠ []
      ∧ shelf.WF ∧ shelf.genres.find? (fun x => x._id == idA) = some fiction
      ∧ shelf.books.filter (fun b => b.genre.contains idA) = [])
    ∧ (run (genre_delete_post refLib { params_id := idA, body := form [] }) library).2.store
        = library
    ∧ (run (genre_delete_post refLib { params_id := idA, body := form [] }) shelf).2.store.genres
        = [] :=
  ⟨⟨by decide, by decide, by decide, by decide, by decide, by decide, by decide⟩,
   by rw [(genre_delete_post_guard refLib library { params_id := idA, body := form [] } idA
        fiction (by decide) (by decide) (by decide)).1 (by decide)],
   by rw [(genre_delete_post_guard refLib shelf { params_id := idA, body := form [] } idA
        fiction (by decide) (by decide) (by decide)).2 (by decide)]; decide⟩

/-- C2, evaluated: `bookinstance_delete_post` checks the status of the instance named by
`params.id` and removes the instance named by `body.bookInstanceId`. On the route of the
available copy with the loaned copy in the body, the available copy stays in the store and the
loaned copy is removed. -/
theorem bookinstance_delete_post_removes_body_id :
    run (bookinstance_delete_post refLib
          { params_id := idC, body := form [("bookInstanceId", idD)] }) library =
      (.ok (), { store := { library with bookinstances := [copyAvailable] },
                 trace := [.findById "BookInstance" idC,
                   .findByIdAndRemove "BookInstance" (some idD),
                   .redirect "/catalog/bookinstances"] }) := by
  rfl

/-- C5, evaluated: when the lookup finds no entity, `genre_delete_get` redirects and then still
renders the view `genre_delete`, and `bookinstance_delete_post` redirects and then still reads
the status of the missing instance, which raises. -/
theorem not_found_falls_through :
    run (genre_delete_get refLib { params_id := idB, body := form [] }) library =
      (.ok (), { store := library,
                 trace := [.findById "Genre" idB, .find "Book" (some idB),
                   .redirect "/catalog/genre",
                   .render "genre_delete"
                     [("title", .str "Delete Genre"), ("genre", .genre none),
                      ("genreBooks", .books [])]] })
    ∧ run (bookinstance_delete_post refLib { params_id := idA, body := form [] }) library =
      (.ok (), { store := library,
                 trace := [.findById "BookInstance" idA, .log "nope",
                   .redirect "/catalog/bookinstances", .next (.typeError "status")] }) := by
  exact ⟨rfl, rfl⟩

/-- A name that is too short for `isLength` only because of a variation selector is rejected by
both genre posts, also when a Genre of that name is stored: the form is rendered again with the
error and the store is unchanged. -/
theorem genre_posts_reject_selector_name :
    run (genre_create_post refLib idB { params_id := "", body := form [("name", "ab\uFE0F")] })
        { shelf with genres := [{ _id := idA, name := "ab\uFE0F" }] } =
      (.ok (), { store := { shelf with genres := [{ _id := idA, name := "ab\uFE0F" }] },
                 trace := [.render "genre_form"
                   [("title", .str "Create Genre"),
                    ("genre", .genreDoc { _id := some idB, name := "ab\uFE0F" }),
                    ("errors", .errors
                      [⟨"name", "Genre name must contain at least 3 characters"⟩])]] })
    ∧ run (genre_update_post refLib { params_id := idA, body := form [("name", "ab\uFE0F")] })
        { shelf with genres := [{ _id := idA, name := "ab\uFE0F" }] } =
      (.ok (), { store := { shelf with genres := [{ _id := idA, name := "ab\uFE0F" }] },
                 trace := [.render "genre_form"
                   [("title", .str "Update genre"),
                    ("genre", .genreDoc { _id := some idA, name := "ab\uFE0F" }),
                    ("errors", .errors
                      [⟨"name", "Genre name must contain at least 3 characters"⟩])]] }) := by
  exact ⟨rfl, rfl⟩

/-- C3: `genre_create_post` with a raw name that passes validation (`isLength` with minimum 3
on the trimmed name) and whose trimmed, escaped form is the name of a Genre in the store: the
outcome is a redirect to the url of an existing Genre of that name, and the store is
unchanged. -/
theorem genre_create_post_existing (L : Lib) (s : Store) (newId : ObjectId) (req : Req)
    (raw : String) (g : Genre)
    (hraw : req.body "name" = some raw)
    (hvalid : isLength 3 (trim raw) = true)
    (hmem : g ∈ s.genres)
    (hname : g.name = escape (trim raw)) :
    ∃ g0 ∈ s.genres, g0.name = escape (trim raw) ∧
      run (genre_create_post L newId req) s =
        (.ok (), { store := s,
                   trace := [.findOne "Genre" (escape (trim raw)),
                     .redirect (L.genreUrl g0)] }) := by
  have hr : (rawValues req.body "name").toStr = raw := by simp [rawValues, hraw, Value.toStr]
  obtain ⟨hv1, hv2⟩ := (genre_chain_eval L req.body).1
  rw [hr] at hv1 hv2
  rw [if_pos hvalid] at hv2
  cases hf : s.genres.find? (fun x => x.name == escape (trim raw)) with
  | none =>
    have := List.find?_eq_none.mp hf g hmem
    simp [hname] at this
  | some g0 =>
    refine ⟨g0, List.mem_of_find?_eq_some hf, ?_, ?_⟩
    · simpa using List.find?_some hf
    · simp [run, genre_create_post, asyncHandler, bind, Genre.findOne, await, hv1, hv2, hf,
        res_redirect, emit]

/-- C3, at a concrete store: " Fiction " submitted while "Fiction" exists redirects to the
existing genre and adds nothing. -/
theorem genre_create_post_existing_witness :
    (form [("name", " Fiction ")] "name" = some " Fiction " ∧ isLength 3 (trim " Fiction ") = true
      ∧ fiction ∈ shelf.genres ∧ fiction.name = escape (trim " Fiction "))
    ∧ ∃ g0 ∈ shelf.genres, g0.name = escape (trim " Fiction ") ∧
      run (genre_create_post refLib idB { params_id := "", body := form [("name", " Fiction ")] })
          shelf =
        (.ok (), { store := shelf,
                   trace := [.findOne "Genre" (escape (trim " Fiction ")),
                     .redirect (refLib.genreUrl g0)] }) :=
  ⟨⟨by decide, by decide, by decide, by decide⟩,
   genre_create_post_existing refLib shelf idB
     { params_id := "", body := form [("name", " Fiction ")] } " Fiction " fiction
     (by decide) (by decide) (by decide) (by decide)⟩

/-- C4, evaluated on the malformed id "abc": the two detail handlers check the id first and
answer with a 404 error, issuing no lookup; the delete and update handlers issue their lookup
with the id as received, and the outcome is the cast error of that lookup passed to `next`,
not a 404 error or a redirect to the list. -/
theorem malformed_id_reaches_lookup :
    isValidObjectId refLib "abc" = false
    ∧ (run (genre_detail refLib { params_id := "abc", body := form [] }) library =
        (.ok (), { store := library, trace := [.next (.http "Genre not found" 404)] })
      ∧ run (bookinstance_detail refLib { params_id := "abc", body := form [] }) library =
        (.ok (), { store := library, trace := [.next (.http "Book copy not found" 404)] }))
    ∧ (run (genre_delete_get refLib { params_id := "abc", body := form [] }) library =
        (.ok (), { store := library,
                   trace := [.findById "Genre" "abc", .find "Book" (some "abc"),
                     .next (.castError "Genre" "abc")] })
      ∧ run (genre_delete_post refLib { params_id := "abc", body := form [] }) library =
        (.ok (), { store := library,
                   trace := [.findById "Genre" "abc", .find "Book" (some "abc"),
                     .next (.castError "Genre" "abc")] })
      ∧ run (genre_update_get refLib { params_id := "abc", body := form [] }) library =
        (.ok (), { store := library,
                   trace := [.findById "Genre" "abc", .next (.castError "Genre" "abc")] })
      ∧ run (genre_update_post refLib { params_id := "abc", body := form [("name", "Drama")] })
          library =
        (.ok (), { store := library,
                   trace := [.findOne "Genre" "Drama", .findByIdAndUpdate "Genre" "abc",
                     .next (.castError "Genre" "abc")] }))
    ∧ (run (bookinstance_delete_get refLib { params_id := "abc", body := form [] }) library =
        (.ok (), { store := library,
                   trace := [.findById "BookInstance" "abc",
                     .next (.castError "BookInstance" "abc")] })
      ∧ run (bookinstance_delete_post refLib { params_id := "abc", body := form [] }) library =
        (.ok (), { store := library,
                   trace := [.findById "BookInstance" "abc",
                     .next (.castError "BookInstance" "abc")] })
      ∧ run (bookinstance_update_get refLib { params_id := "abc", body := form [] }) library =
        (.ok (), { store := library,
                   trace := [.findById "BookInstance" "abc", .find "Book" none,
                     .next (.castError "BookInstance" "abc")] })
      ∧ run (bookinstance_update_post refLib { params_id := "abc", body := copyForm }) library =
        (.ok (), { store := library,
                   trace := [.findByIdAndUpdate "BookInstance" "abc",
                     .next (.castError "BookInstance" "abc")] })) := by
  exact ⟨rfl, ⟨rfl, rfl⟩, ⟨rfl, rfl, rfl, rfl⟩, ⟨rfl, rfl, rfl, rfl⟩⟩

/-- C6 as stated fails: with "Fiction" in the store, creating "fiction", or renaming another
genre to "FICTION", leaves two Genres whose names are equal after trimming and ignoring letter
case. -/
theorem genre_name_case_duplicates :
    (NormalizedNamesUnique shelf
      ∧ ¬ NormalizedNamesUnique
          (run (genre_create_post refLib idB
            { params_id := "", body := form [("name", "fiction")] }) shelf).2.store)
    ∧ (NormalizedNamesUnique twoGenres
      ∧ ¬ NormalizedNamesUnique
          (run (genre_update_post refLib
            { params_id := idB, body := form [("name", "FICTION")] }) twoGenres).2.store) := by
  decide

/-- C6, amended: the predicate "every stored Genre name is trimmed and no two Genres have the
same trimmed name, letter case being significant" is an invariant of `genre_create_post` and
of `genre_update_post`: it holds of the store after the operation whenever it holds before,
for every request. -/
theorem genre_names_stay_unique (L : Lib) (s : Store) (newId : ObjectId) (req : Req)
    (h : TrimmedNamesUnique s) :
    TrimmedNamesUnique (run (genre_create_post L newId req) s).2.store
    ∧ TrimmedNamesUnique (run (genre_update_post L req) s).2.store := by
  constructor
  · rcases genre_create_post_store L s newId req with hs | ⟨hs, hf⟩
    · rw [hs]
      exact h
    · rw [hs]
      exact trimmedUnique_append s.genres _ h (trim_escape_trim _) (find?_name_eq_none hf)
  · rcases genre_update_post_store L s req with hs | ⟨⟨oid, hs⟩, hf⟩
    · rw [hs]
      exact h
    · rw [hs]
      exact trimmedUnique_updateFirst _ _ (trim_escape_trim _) s.genres h (find?_name_eq_none hf)

/-- C6, amended, at a concrete store: creating " Drama " next to "Fiction" and "Poetry", and
renaming "Poetry" to it, keep the names trimmed and distinct. -/
theorem genre_names_stay_unique_witness :
    TrimmedNamesUnique twoGenres
    ∧ TrimmedNamesUnique
        (run (genre_create_post refLib idC
          { params_id := idB, body := form [("name", " Drama ")] }) twoGenres).2.store
    ∧ TrimmedNamesUnique
        (run (genre_update_post refLib
          { params_id := idB, body := form [("name", " Drama ")] }) twoGenres).2.store :=
  ⟨by decide,
   genre_names_stay_unique refLib twoGenres idC
     { params_id := idB, body := form [("name", " Drama ")] } (by decide)⟩

/-- C7 as stated fails: a form whose book and imprint are not empty after trimming and whose
due_back is an ISO-8601 date is persisted, but the stored imprint is the trimmed, escaped text
"A&amp;B", not the submitted " A&B ". -/
theorem bookinstance_create_post_stores_sanitized :
    (copyForm "imprint" = some " A&B " ∧ trim idB ≠ "" ∧ trim " A&B " ≠ ""
      ∧ refLib.isISO8601 "2024-01-02" = true)
    ∧ ((run (bookinstance_create_post refLib idA { params_id := "", body := copyForm })
          library).2.store.bookinstances.find?
        (fun b => b._id == idA)).map (fun b => b.imprint) = some "A&amp;B"
    ∧ some "A&amp;B" ≠ copyForm "imprint" := by
  decide

/-- C7, amended: `bookinstance_create_post` on a form whose book and imprint are not empty
after trimming and whose due_back is a non-empty ISO-8601 date, when the sanitized book casts
to an ObjectId, the document passes the schema validation of `save` and the new id is not in
the store: the outcome is the save followed by the redirect to the new instance, and what is
retrievable by the new id has the trimmed, escaped imprint, the escaped status and the
due-back date `toDate` makes of the submitted one. -/
theorem bookinstance_create_post_persists (L : Lib) (s : Store) (newId : ObjectId) (req : Req)
    (bk im st db : String) (b : ObjectId)
    (hbk : req.body "book" = some bk) (him : req.body "imprint" = some im)
    (hst : req.body "status" = some st) (hdb : req.body "due_back" = some db)
    (hbk1 : trim bk ≠ "") (him1 : trim im ≠ "") (hdb1 : db ≠ "")
    (hiso : L.isISO8601 db = true)
    (hcast : L.castObjectId (escape (trim bk)) = some b)
    (hschema : L.validateBookInstance (createdInstance L newId b im st db) = true)
    (hfresh : ∀ x ∈ s.bookinstances, x._id ≠ newId) :
    run (bookinstance_create_post L newId req) s =
      (.ok (), { store :=
                   { s with
                     bookinstances := s.bookinstances ++ [createdInstance L newId b im st db] },
                 trace := [.save "BookInstance" (some newId),
                   .redirect (L.bookinstanceUrl (createdInstance L newId b im st db))] })
    ∧ (s.bookinstances ++ [createdInstance L newId b im st db]).find?
        (fun y => y._id == newId) = some (createdInstance L newId b im st db) := by
  have hnone : s.bookinstances.find? (fun y => y._id == newId) = none := by
    rw [List.find?_eq_none]
    intro x hx
    simpa using hfresh x hx
  have hany : (s.bookinstances.any (fun y => y._id == newId)) = false := by
    rw [List.any_eq_false]
    intro x hx
    simpa using hfresh x hx
  have hv : runValidators L bookinstance_create_post_validators req.body =
      (fun k => if k = "due_back" then
          (match L.toDate db with
            | some d => Value.date d
            | none => Value.null)
        else if k = "status" then .str (escape st)
        else if k = "imprint" then .str (escape (trim im))
        else if k = "book" then .str (escape (trim bk))
        else rawValues req.body k, []) := by
    simp [runValidators, bookinstance_create_post_validators, runChain, runItem, rawValues,
      hbk, him, hst, hdb, Value.toStr, Value.falsy, isLength_one, hbk1, him1, hdb1, hiso]
  unfold createdInstance at *
  constructor
  · simp only [run, bookinstance_create_post, hv]
    cases hd : L.toDate db <;>
      simp [hd] at hschema ⊢ <;>
      simp [asyncHandler, bind, await, BookInstanceDoc.save, Value.toObjectId, Value.toStr,
        Value.toDate?, hcast, hschema, hany, res_redirect, emit, pure]
  · simp [List.find?_append, hnone]

/-- C7, amended, at a concrete store: the form with imprint " A&B " is persisted and what is
found under the new id is the sanitized instance. -/
theorem bookinstance_create_post_persists_witness :
    (copyForm "book" = some idB ∧ copyForm "imprint" = some " A&B "
      ∧ copyForm "status" = some "Available" ∧ copyForm "due_back" = some "2024-01-02"
      ∧ trim idB ≠ "" ∧ trim " A&B " ≠ "" ∧ "2024-01-02" ≠ ""
      ∧ refLib.isISO8601 "2024-01-02" = true
      ∧ refLib.castObjectId (escape (trim idB)) = some idB
      ∧ refLib.validateBookInstance
          (createdInstance refLib idA idB " A&B " "Available" "2024-01-02") = true
      ∧ ∀ x ∈ library.bookinstances, x._id ≠ idA)
    ∧ (library.bookinstances
          ++ [createdInstance refLib idA idB " A&B " "Available" "2024-01-02"]).find?
        (fun y => y._id == idA)
      = some (createdInstance refLib idA idB " A&B " "Available" "2024-01-02") :=
  ⟨⟨by decide, by decide, by decide, by decide, by decide, by decide, by decide, by decide,
    by decide, by decide, by decide⟩,
   (bookinstance_create_post_persists refLib library idA { params_id := "", body := copyForm }
     idB " A&B " "Available" "2024-01-02" idB (by decide) (by decide) (by decide) (by decide)
     (by decide) (by decide) (by decide) (by decide) (by decide) (by decide) (by decide)).2⟩

/-- C8: the validation chains of `bookinstance_create_post` and `bookinstance_update_post`
never stop early: for every raw body the error list is, in the field order book, imprint,
due_back, one error for each violated rule (book empty after trimming; imprint empty after
trimming; due_back present, not empty and not an ISO-8601 date) and nothing else; an absent or
empty due_back gives no error. -/
theorem bookinstance_validation_collects (L : Lib) (body : String → Option String) :
    (runValidators L bookinstance_create_post_validators body).2 = bookinstanceErrorsSpec L body
    ∧ (runValidators L bookinstance_update_post_validators body).2
        = bookinstanceErrorsSpec L body := by
  constructor <;>
  · simp only [runValidators, bookinstance_create_post_validators,
      bookinstance_update_post_validators, runChain, runItem, rawValues, List.foldl,
      bookinstanceErrorsSpec, isLength_one]
    cases hb : body "book" <;> cases hi : body "imprint" <;> cases hd : body "due_back" <;>
      simp [Value.toStr, Value.falsy, trim_empty] <;>
      split_ifs <;> simp_all

/-- C9, evaluated: on a BookInstance form without `book` the validation reports the error on
`book`, and both `bookinstance_create_post` and `bookinstance_update_post` then raise while
building the view data (reading `_id` of the unset `book`): the form is not rendered again and
the error reaches `next`; the store is unchanged. -/
theorem bookinstance_form_raises_on_missing_book :
    (runValidators refLib bookinstance_create_post_validators formWithoutBook).2
      = [⟨"book", "Book must be specified"⟩]
    ∧ run (bookinstance_create_post refLib idA { params_id := "", body := formWithoutBook })
        library =
      (.ok (), { store := library,
                 trace := [.find "Book" none, .next (.typeError "_id")] })
    ∧ run (bookinstance_update_post refLib { params_id := idC, body := formWithoutBook })
        library =
      (.ok (), { store := library,
                 trace := [.find "Book" none, .next (.typeError "_id")] }) := by
  exact ⟨rfl, rfl, rfl⟩

/-- C10 as stated fails: updating the genre "Fiction" with its own, unchanged name, which no
other Genre holds, is answered by the redirect of the duplicate check; no update is issued. -/
theorem genre_update_post_redirects_to_itself :
    (form [("name", "Fiction")] "name" = some "Fiction" ∧ isLength 3 (trim "Fiction") = true
      ∧ ∀ g ∈ twoGenres.genres, g.name = escape (trim "Fiction") → g._id = idA)
    ∧ run (genre_update_post refLib { params_id := idA, body := form [("name", "Fiction")] })
        twoGenres =
      (.ok (), { store := twoGenres,
                 trace := [.findOne "Genre" "Fiction",
                   .redirect "/catalog/genre/aaaaaaaaaaaaaaaaaaaaaaaa"] })
    ∧ Event.findByIdAndUpdate "Genre" idA ∉
        (run (genre_update_post refLib { params_id := idA, body := form [("name", "Fiction")] })
          twoGenres).2.trace := by
  refine ⟨⟨by decide, by decide, by decide⟩, rfl, by decide⟩

/-- C10, amended: in `genre_update_post` the duplicate check looks at every Genre, the one
being updated included. For every valid request (`isLength` with minimum 3 accepts the trimmed
name): when some Genre holds the sanitized name, the
outcome is the redirect to the first such Genre and the store is unchanged; when no Genre
holds it and `params.id` names a Genre, the update is applied to that Genre and the outcome is
the redirect to it. -/
theorem genre_update_post_duplicate_check (L : Lib) (s : Store) (req : Req) (raw : String)
    (hraw : req.body "name" = some raw)
    (hvalid : isLength 3 (trim raw) = true) :
    (∀ g, s.genres.find? (fun x => x.name == escape (trim raw)) = some g →
      run (genre_update_post L req) s =
        (.ok (), { store := s,
                   trace := [.findOne "Genre" (escape (trim raw)),
                     .redirect (L.genreUrl g)] }))
    ∧ (s.genres.find? (fun x => x.name == escape (trim raw)) = none →
      ∀ oid old, L.castObjectId req.params_id = some oid →
        s.genres.find? (fun x => x._id == oid) = some old →
        run (genre_update_post L req) s =
          (.ok (), { store :=
                       { s with
                         genres := updateFirst (fun x => x._id == oid)
                           (fun o => { o with name := escape (trim raw) }) s.genres },
                     trace := [.findOne "Genre" (escape (trim raw)),
                       .findByIdAndUpdate "Genre" req.params_id,
                       .redirect (L.genreUrl old)] })) := by
  have hr : (rawValues req.body "name").toStr = raw := by simp [rawValues, hraw, Value.toStr]
  obtain ⟨hv1, hv2⟩ := (genre_chain_eval L req.body).2
  rw [hr] at hv1 hv2
  rw [if_pos hvalid] at hv2
  constructor
  · intro g hf
    simp [run, genre_update_post, asyncHandler, bind, Genre.findOne, await, hv1, hv2, hf,
      res_redirect, emit]
  · intro hf oid old hid hold
    simp [run, genre_update_post, asyncHandler, bind, Genre.findOne, await, hv1, hv2, hf,
      res_redirect, emit, Genre.findByIdAndUpdate, hid, hold]

/-- C10, amended, at a concrete store: renaming "Poetry" to "Fiction" is redirected to the
genre "Fiction", and renaming it to "Drama" is applied. -/
theorem genre_update_post_duplicate_check_witness :
    (form [("name", "Fiction")] "name" = some "Fiction" ∧ isLength 3 (trim "Fiction") = true
      ∧ form [("name", "Drama")] "name" = some "Drama" ∧ isLength 3 (trim "Drama") = true)
    ∧ run (genre_update_post refLib { params_id := idB, body := form [("name", "Fiction")] })
        twoGenres =
      (.ok (), { store := twoGenres,
                 trace := [.findOne "Genre" (escape (trim "Fiction")),
                   .redirect (refLib.genreUrl fiction)] })
    ∧ (run (genre_update_post refLib { params_id := idB, body := form [("name", "Drama")] })
        twoGenres).2.store.genres = [fiction, { _id := idB, name := "Drama" }] :=
  ⟨⟨by decide, by decide, by decide, by decide⟩,
   (genre_update_post_duplicate_check refLib twoGenres
     { params_id := idB, body := form [("name", "Fiction")] } "Fiction"
     (by decide) (by decide)).1 fiction (by decide),
   by rw [(genre_update_post_duplicate_check refLib twoGenres
        { params_id := idB, body := form [("name", "Drama")] } "Drama"
        (by decide) (by decide)).2 (by decide) idB { _id := idB, name := "Poetry" }
        (by decide) (by decide)]; decide⟩

end LocalLibrary
